import Mathlib

/-!
Verification development for the pop-api receipt core: the field-extraction
pipeline (`parsers.py`), the verification matcher (`matcher.py`) and the
history normalizer (`history_parser.py`) are shallowly embedded below.

Conventions of the embedding:
* Python strings are `List Char` (`Str`); Python `None` is `Option.none`.
* Python truthiness of strings is "non-None and non-empty"; of floats it is
  "non-None and nonzero"; it is modelled explicitly at each use site.
* Python floats are modelled exactly: a parsed literal (`PyFloat`) records
  the decimal the string denotes, `pfDouble` rounds it to the nearest
  IEEE-754 binary64 value (ties to even, represented in units of
  `2 ^ (-1074)`), and every float observation the code makes — truthiness,
  `> 0`, and the `abs(a - b) < 0.01` epsilon test with its own rounded
  subtraction and the double literal `0.01` — is computed on those doubles,
  as CPython computes it.
* Python regular expressions are interpreted by a small backtracking engine
  (`mat`) with Python `re` semantics: leftmost match, alternation tried in
  written order, greedy quantifiers, word boundaries.  Each compiled pattern
  of the source is transcribed into an `RE` term next to a comment quoting
  the original pattern.  Character classes are ASCII (the `\w`/`\d` unicode
  extensions of Python are not modelled; all receipt data is ASCII plus '₱').
* Python helpers whose names start with an underscore keep their names
  without the underscore (`_extract_ref_no` becomes `extract_ref_no`).
-/

set_option maxRecDepth 8000
set_option maxHeartbeats 4000000

abbrev Str := List Char

/-- Pack a Lean string literal into the `List Char` representation. -/
def str (s : String) : Str := s.toList

/-- Python `\s` for ASCII-plus-common-unicode text (space, tab, newline,
carriage return, vertical tab, form feed, file/group/record/unit separators,
next line, no-break space and the unicode space block). -/
def pySpace (c : Char) : Bool :=
  c == ' ' || c == '\t' || c == '\n' || c == '\r' ||
  c.toNat == 11 || c.toNat == 12 ||
  (28 ≤ c.toNat && c.toNat ≤ 31) ||
  c.toNat == 0x85 || c.toNat == 0xa0 || c.toNat == 0x1680 ||
  (0x2000 ≤ c.toNat && c.toNat ≤ 0x200a) ||
  c.toNat == 0x2028 || c.toNat == 0x2029 || c.toNat == 0x202f ||
  c.toNat == 0x205f || c.toNat == 0x3000

/-- Python `\d` (ASCII digits). -/
def isDigitC (c : Char) : Bool := c.isDigit

/-- Python `\w` (ASCII letters, digits and underscore). -/
def pyWord (c : Char) : Bool := c.isAlphanum || c == '_'

/-- ASCII letter (what `[A-Z]` matches under `re.IGNORECASE`). -/
def alphaA (c : Char) : Bool := c.isAlpha

/-- Python `str.lower()` (ASCII case mapping). -/
def lowerS (s : Str) : Str := s.map Char.toLower

/-- `pat` is an initial segment of `s`. -/
def leadEq : Str → Str → Bool
  | [], _ => true
  | _ :: _, [] => false
  | p :: ps, c :: cs => p == c && leadEq ps cs

/-- Python `pat in hay` (substring containment). -/
def strHas : Str → Str → Bool
  | [], pat => pat.isEmpty
  | c :: rest, pat => leadEq pat (c :: rest) || strHas rest pat

/-- Python `" ".join(lines)`. -/
def joinSp : List Str → Str
  | [] => []
  | [l] => l
  | l :: rest => l ++ ' ' :: joinSp rest

/-- Python `str.strip()` (strip leading and trailing whitespace). -/
def pyStrip (s : Str) : Str :=
  ((s.dropWhile pySpace).reverse.dropWhile pySpace).reverse

/-- Python `s.replace(",", "")`. -/
def stripCommas (s : Str) : Str := s.filter (fun c => c ≠ ',')

/-- First `some` produced by `f` over a list (Python loop with early return). -/
def firstSome (f : α → Option β) : List α → Option β
  | [] => none
  | x :: xs =>
    match f x with
    | some v => some v
    | none => firstSome f xs

/-- `a` if it is `some`, else `b` (early-return chaining). -/
def firstOf (a b : Option α) : Option α :=
  match a with
  | some x => some x
  | none => b

/-! ### A small backtracking regex engine

`RE` terms transcribe the `re` patterns of the source.  `mat` is a
continuation-passing backtracking matcher: alternatives are tried in order,
`rep` is greedy, and captures record the consumed substring.  The `fuel`
argument only bounds the recursion depth (pattern nesting plus one level per
consumed character per quantifier); `fuelFor` is far above that bound for
every reachable execution, so the engine is total without changing the
semantics of the patterns used here. -/

inductive RE where
  | eps : RE
  | cls : (Char → Bool) → RE
  | cat : RE → RE → RE
  | alt : RE → RE → RE
  /-- Greedy `r*` (`mx = none`) or `r{0,mx}` (`mx = some n`). -/
  | rep : Option Nat → RE → RE
  | grp : Nat → RE → RE
  /-- `\b` word boundary. -/
  | wb : RE
  /-- `$` at end of input (used for fully anchored `re.match` patterns). -/
  | eos : RE
  /-- `$` under `re.MULTILINE`: end of input or just before a newline. -/
  | eolML : RE

abbrev Caps := List (Nat × Str)

def reSize : RE → Nat
  | .eps => 1
  | .cls _ => 1
  | .cat a b => reSize a + reSize b + 1
  | .alt a b => reSize a + reSize b + 1
  | .rep _ r => reSize r + 1
  | .grp _ r => reSize r + 1
  | .wb => 1
  | .eos => 1
  | .eolML => 1

/-- Is the char before the current position (`prev`) / the next char a word
character (for `\b`)? -/
def wordB (prev : Option Char) (s : Str) : Bool :=
  let pw := match prev with | some c => pyWord c | none => false
  let nw := match s with | c :: _ => pyWord c | [] => false
  pw != nw

/-- Backtracking matcher.  `prev` is the character before the current
position (for `\b`), `k` the continuation receiving the new `prev`, the
rest of the input and the captures accumulated on the successful path.
Returns the captures and leftover input of the first successful path. -/
def mat (fuel : Nat) (re : RE) (prev : Option Char) (s : Str)
    (k : Option Char → Str → Caps → Option (Caps × Option Char × Str))
    (caps : Caps) : Option (Caps × Option Char × Str) :=
  match fuel with
  | 0 => none
  | fuel + 1 =>
    match re with
    | .eps => k prev s caps
    | .cls p =>
      match s with
      | [] => none
      | c :: rest => if p c then k (some c) rest caps else none
    | .cat a b => mat fuel a prev s (fun p' s' c' => mat fuel b p' s' k c') caps
    | .alt a b =>
      match mat fuel a prev s k caps with
      | some r => some r
      | none => mat fuel b prev s k caps
    | .rep mx r =>
      match mx with
      | some 0 => k prev s caps
      | _ =>
        let nxt : Option Nat := match mx with | none => none | some n => some (n - 1)
        match mat fuel r prev s (fun p' s' c' =>
            if s'.length < s.length then mat fuel (.rep nxt r) p' s' k c' else none) caps with
        | some r' => some r'
        | none => k prev s caps
    | .grp i r =>
      mat fuel r prev s (fun p' s' c' =>
        k p' s' ((i, s.take (s.length - s'.length)) :: c')) caps
    | .wb => if wordB prev s then k prev s caps else none
    | .eos => match s with | [] => k prev s caps | _ => none
    | .eolML =>
      match s with
      | [] => k prev s caps
      | c :: _ => if c == '\n' then k prev s caps else none

/-- Ample fuel for `mat` on input `s` (the depth actually needed is at most
`reSize re + s.length` plus a constant). -/
def fuelFor (re : RE) (s : Str) : Nat := (reSize re + 2) * (s.length + 2) + 16

/-- Try to match `re` at the current position. -/
def matTop (fuel : Nat) (re : RE) (prev : Option Char) (s : Str) :
    Option (Caps × Option Char × Str) :=
  mat fuel re prev s (fun p' s' caps => some (caps, p', s')) []

/-- Leftmost search: try each start position left to right (`re.search`). -/
def searchGo (re : RE) (fuel : Nat) : Option Char → Str → Option Caps
  | prev, [] => (matTop fuel re prev []).map (fun r => r.1)
  | prev, c :: rest =>
    match matTop fuel re prev (c :: rest) with
    | some (caps, _, _) => some caps
    | none => searchGo re fuel (some c) rest

def reSearch (re : RE) (s : Str) : Option Caps :=
  searchGo re (fuelFor re s) none s

/-- `re.match` (anchored at the start of the input). -/
def reMatch0 (re : RE) (s : Str) : Option Caps :=
  (matTop (fuelFor re s) re none s).map (fun r => r.1)

/-- Value of capture group `i` (innermost binding on the successful path). -/
def grpGet (i : Nat) (caps : Caps) : Option Str :=
  (caps.find? (fun p => p.1 == i)).map (fun p => p.2)

/-- `re.search(...)` followed by `.group(1)`. -/
def searchGrp1 (re : RE) (s : Str) : Option Str :=
  (reSearch re s).bind (grpGet 1)

/-- `re.match(...)` followed by `.group(1)`. -/
def match0Grp1 (re : RE) (s : Str) : Option Str :=
  (reMatch0 re s).bind (grpGet 1)

/-- All non-overlapping matches left to right (`re.finditer`); after a match
the scan resumes at its end (advancing one character on an empty match).
`gas` bounds the number of scan steps (one or more characters are consumed
per step, so `length + 1` is enough). -/
def findAllGo (re : RE) (fuel : Nat) : Nat → Option Char → Str → List Caps
  | 0, _, _ => []
  | gas + 1, prev, s =>
    match matTop fuel re prev s with
    | some (caps, p', rest) =>
      if rest.length < s.length then caps :: findAllGo re fuel gas p' rest
      else
        match s with
        | [] => [caps]
        | c :: rest2 => caps :: findAllGo re fuel gas (some c) rest2
    | none =>
      match s with
      | [] => []
      | c :: rest => findAllGo re fuel gas (some c) rest

def findAll (re : RE) (s : Str) : List Caps :=
  findAllGo re (fuelFor re s) (s.length + 1) none s

/-! Pattern-building helpers. -/

/-- Single case-sensitive literal character. -/
def chC (c : Char) : RE := RE.cls (fun x => x == c)

/-- Single literal character under `re.IGNORECASE` (ASCII folding). -/
def chCI (c : Char) : RE := RE.cls (fun x => x.toLower == c.toLower)

def rcat (l : List RE) : RE := l.foldr RE.cat RE.eps

/-- Case-sensitive literal string. -/
def strC (s : String) : RE := rcat (s.toList.map chC)

/-- Literal string under `re.IGNORECASE`. -/
def strCI (s : String) : RE := rcat (s.toList.map chCI)

def reFail : RE := RE.cls (fun _ => false)

/-- Ordered alternation `a|b|...`. -/
def altL : List RE → RE
  | [] => reFail
  | x :: xs => xs.foldl RE.alt x

/-- Greedy `r?`. -/
def qOpt (r : RE) : RE := RE.alt r RE.eps

/-- Greedy `r*`. -/
def starR (r : RE) : RE := RE.rep none r

/-- Greedy `r+`. -/
def plusR (r : RE) : RE := RE.cat r (starR r)

/-- `r{n}`. -/
def repN (n : Nat) (r : RE) : RE := rcat (List.replicate n r)

/-- Greedy `r{n,}`. -/
def repAtLeast (n : Nat) (r : RE) : RE := RE.cat (repN n r) (starR r)

/-- Greedy `r{m,n}`. -/
def repRange (m n : Nat) (r : RE) : RE := RE.cat (repN m r) (RE.rep (some (n - m)) r)

def dC : RE := RE.cls isDigitC
def sC : RE := RE.cls pySpace
def wC : RE := RE.cls pyWord

/-! ## `parsers.py` — receipt field extraction -/

/-- `ReceiptData` (dataclass of `parsers.py`). -/
structure ReceiptData where
  provider : Option Str
  transaction_id : Option Str
  amount : Option Str
  time : Option Str
  raw_text : Option (List Str)
deriving DecidableEq

/-- Lowercased space-joined search buffer of `detect_provider`. -/
def combinedOf (lines : List Str) : Str := lowerS (joinSp lines)

def bdoKwB (c : Str) : Bool := strHas c (str "bdo") || strHas c (str "bdopay")

def gcashKwB (c : Str) : Bool :=
  strHas c (str "gcash") || strHas c (str "g cash") || strHas c (str "g-xchange")

def mayaKwB (c : Str) : Bool := strHas c (str "paymaya") || strHas c (str "maya")

def structKwB (c : Str) : Bool :=
  strHas c (str "transaction details") && strHas c (str "transfer from")

/-- `detect_provider(lines)`: keyword groups tested in fixed priority order. -/
def detect_provider (lines : List Str) : Option Str :=
  if bdoKwB (combinedOf lines) then some (str "bdo")
  else if gcashKwB (combinedOf lines) then some (str "gcash")
  else if mayaKwB (combinedOf lines) then some (str "paymaya")
  else if structKwB (combinedOf lines) then some (str "gcash")
  else none

/-- `[\s.:]`. -/
def spDotColon : RE := RE.cls (fun c => pySpace c || c == '.' || c == ':')

/-- `(?:No\.?|Number)?`. -/
def noOrNumber : RE := qOpt (altL [rcat [strCI "No", qOpt (chC '.')], strCI "Number"])

/-- `(?:No\.?|Number|ID)?`. -/
def noOrNumberOrId : RE :=
  qOpt (altL [rcat [strCI "No", qOpt (chC '.')], strCI "Number", strCI "ID"])

/-- `_REF_NO_PATTERN`:
`(?:Ref\.?\s*(?:No\.?|Number)?|Reference\s*(?:No\.?|Number)?|Transaction\s*(?:No\.?|Number|ID)?)[\s.:]*(\d[\d\s]{8,})` with `re.IGNORECASE`. -/
def refNoRE : RE := rcat [
  altL [rcat [strCI "Ref", qOpt (chC '.'), starR sC, noOrNumber],
        rcat [strCI "Reference", starR sC, noOrNumber],
        rcat [strCI "Transaction", starR sC, noOrNumberOrId]],
  starR spDotColon,
  RE.grp 1 (rcat [dC, repAtLeast 8 (RE.cls (fun c => isDigitC c || pySpace c))])]

/-- `_ALPHANUMERIC_REF_PATTERN`:
`(?:Ref(?:erence)?\s*(?:No\.?|Number)?|Transaction\s*(?:No\.?|Number|ID)?)[\s.:]*([A-Z]{2,}-[\w-]{8,})` with `re.IGNORECASE`. -/
def alnumRefRE : RE := rcat [
  altL [rcat [strCI "Ref", qOpt (strCI "erence"), starR sC, noOrNumber],
        rcat [strCI "Transaction", starR sC, noOrNumberOrId]],
  starR spDotColon,
  RE.grp 1 (rcat [repAtLeast 2 (RE.cls alphaA), chC '-',
                  repAtLeast 8 (RE.cls (fun c => pyWord c || c == '-'))])]

/-- `_STANDALONE_REF_PATTERN`: `\b(\d{13})\b`. -/
def standaloneRefRE : RE := rcat [RE.wb, RE.grp 1 (repN 13 dC), RE.wb]

/-- `_SPACED_REF_PATTERN`: `\b(\d{4}\s?\d{3}\s?\d{3,6})\b`. -/
def spacedRefRE : RE := rcat [RE.wb,
  RE.grp 1 (rcat [repN 4 dC, qOpt sC, repN 3 dC, qOpt sC, repRange 3 6 dC]), RE.wb]

/-- `_BDO_REF_PATTERN`: `\b([A-Z]{2,}-\d{8}-\d{6,})\b` with `re.IGNORECASE`. -/
def bdoRefRE : RE := rcat [RE.wb,
  RE.grp 1 (rcat [repAtLeast 2 (RE.cls alphaA), chC '-', repN 8 dC, chC '-',
                  repAtLeast 6 dC]), RE.wb]

/-- Inner `_clean_ref` of `_extract_ref_no`: remove spaces, cap at 13. -/
def cleanRefDigits (raw : Str) : Str := (raw.filter (fun c => c ≠ ' ')).take 13

/-- Strategy 1 of `_extract_ref_no`: alphanumeric labeled pattern per line,
then over the combined text (`m.group(1).strip()`). -/
def alnumStage (lines : List Str) : Option Str :=
  match firstSome (fun l => searchGrp1 alnumRefRE l) lines with
  | some v => some (pyStrip v)
  | none => (searchGrp1 alnumRefRE (joinSp lines)).map pyStrip

/-- Strategy 2 of `_extract_ref_no`: numeric labeled pattern per line, then
over the combined text; returns the raw capture (cleaning happens at the
return site). -/
def numStage (lines : List Str) : Option Str :=
  match firstSome (fun l => searchGrp1 refNoRE l) lines with
  | some v => some v
  | none => searchGrp1 refNoRE (joinSp lines)

/-- Strategy 5 of `_extract_ref_no`: spaced digit groups; on a match the
spaces are removed and, when at least 10 digits remain, the first 13 are
returned (otherwise the loop moves to the next line). -/
def spacedStage : List Str → Option Str
  | [] => none
  | l :: rest =>
    match searchGrp1 spacedRefRE l with
    | some g =>
      let val := g.filter (fun c => c ≠ ' ')
      if 10 ≤ val.length then some (val.take 13) else spacedStage rest
    | none => spacedStage rest

/-- `_extract_ref_no(lines)` (named `extract_reference` in the spec). -/
def extract_ref_no (lines : List Str) : Option Str :=
  match alnumStage lines with
  | some v => some v
  | none =>
    match numStage lines with
    | some g => some (cleanRefDigits g)
    | none =>
      match firstSome (fun l => searchGrp1 bdoRefRE l) lines with
      | some v => some v
      | none =>
        match firstSome (fun l => searchGrp1 standaloneRefRE l) lines with
        | some v => some v
        | none => spacedStage lines

/-- `([0-9,]+\.\d{2})` (a two-decimal number with optional separators). -/
def amt2RE : RE :=
  RE.grp 1 (rcat [plusR (RE.cls (fun c => isDigitC c || c == ',')), chC '.', repN 2 dC])

/-- `[₱P]` under `re.IGNORECASE`. -/
def pesoP (c : Char) : Bool := c == '₱' || c.toLower == 'p'

/-- Tier-1 pattern of `_extract_amount`:
`Total\s*Amount\s*Sent?\s*[₱P]?\s*([0-9,]+\.\d{2})` with `re.IGNORECASE`. -/
def totalAmtRE : RE := rcat [strCI "Total", starR sC, strCI "Amount", starR sC,
  strCI "Sen", qOpt (chCI 't'), starR sC, qOpt (RE.cls pesoP), starR sC, amt2RE]

/-- `^\s*PHP\s+([0-9,]+\.\d{2})\s*$` with `re.IGNORECASE | re.MULTILINE`,
used via `.match` on the stripped line. -/
def headlineRE : RE := rcat [starR sC, strCI "PHP", plusR sC, amt2RE, starR sC, RE.eolML]

/-- `_AMOUNT_LABEL_PATTERN`: `(?:Amount|Total\s*Amount\s*Sent?)[\s.:]*([0-9,]+\.\d{2})`
with `re.IGNORECASE`. -/
def amountLabelRE : RE := rcat [
  altL [strCI "Amount",
        rcat [strCI "Total", starR sC, strCI "Amount", starR sC, strCI "Sen", qOpt (chCI 't')]],
  starR spDotColon, amt2RE]

/-- `_AMOUNT_PATTERN`: `(?:[₱P]|PHP)\s*([0-9,]+\.?\d*)` with `re.IGNORECASE`. -/
def amountSymRE : RE := rcat [altL [RE.cls pesoP, strCI "PHP"], starR sC,
  RE.grp 1 (rcat [plusR (RE.cls (fun c => isDigitC c || c == ',')), qOpt (chC '.'), starR dC])]

/-- `_PLAIN_AMOUNT_PATTERN`: `\b([0-9,]+\.\d{2})\b`. -/
def plainAmtRE : RE := rcat [RE.wb, amt2RE, RE.wb]

/-- Sub-label exclusion `(?:send\s*money|service\s*fee)` with `re.IGNORECASE`. -/
def subLabelRE : RE := altL [rcat [strCI "send", starR sC, strCI "money"],
                             rcat [strCI "service", starR sC, strCI "fee"]]

def subLabelB (l : Str) : Bool := (reSearch subLabelRE l).isSome

/-- Tier 2 of `_extract_amount`: first line that, stripped, is entirely
`PHP <two-decimal number>` and carries no sub-label. -/
def tier2Headline : List Str → Option Str
  | [] => none
  | l :: rest =>
    let ls := pyStrip l
    if subLabelB ls then tier2Headline rest
    else
      match match0Grp1 headlineRE ls with
      | some g => some (stripCommas g)
      | none => tier2Headline rest

/-- Tier 4 of `_extract_amount`: currency-symbol prefix on a line without a
sub-label. -/
def tier4Sym : List Str → Option Str
  | [] => none
  | l :: rest =>
    if subLabelB l then tier4Sym rest
    else
      match searchGrp1 amountSymRE l with
      | some g => some (stripCommas g)
      | none => tier4Sym rest

/-- The exact decimal a Python float literal denotes: `num / 10 ^ exp10`.
This is only the parsed literal; the float OBJECT the program computes with
is its IEEE-754 binary64 rounding, `pfDouble` below, and every observation
of an amount in this embedding (truthiness, positivity, the epsilon
comparison) goes through `pfDouble`, exactly as CPython rounds. -/
structure PyFloat where
  num : ℤ
  exp10 : ℕ
deriving DecidableEq

/-- `2 ^ k` by binary exponentiation (logarithmic recursion depth; the
fuel 64 covers every exponent below `2 ^ 64`). -/
def pow2F : Nat → Nat → Nat
  | 0, _ => 1
  | fuel + 1, k =>
    if k == 0 then 1
    else
      let h := pow2F fuel (k / 2)
      if k % 2 == 0 then h * h else 2 * (h * h)

def pow2 (k : Nat) : Nat := pow2F 64 k

/-- Number of bits of `n` (`⌊log2 n⌋ + 1` for positive `n`, `0` for zero),
computed in 4096-bit then 64-bit chunks to keep recursion shallow; each
layer's fuel covers what the layer above can leave. -/
def bitlenSmall : Nat → Nat → Nat
  | 0, _ => 0
  | fuel + 1, n => if n == 0 then 0 else bitlenSmall fuel (n / 2) + 1

def bitlenMid : Nat → Nat → Nat
  | 0, n => bitlenSmall 64 n
  | fuel + 1, n =>
    if n < 18446744073709551616 then bitlenSmall 64 n
    else bitlenMid fuel (n / 18446744073709551616) + 64

def bitlenBig : Nat → Nat → Nat
  | 0, n => bitlenMid 64 n
  | fuel + 1, n =>
    if n < pow2 4096 then bitlenMid 64 n
    else bitlenBig fuel (n / pow2 4096) + 4096

def bitlen (n : Nat) : Nat := bitlenBig 4096 n

/-- `2 ^ e ≤ a / d` for positive naturals `a`, `d` and integer `e`. -/
def twoPowLe (a d : Nat) (e : ℤ) : Bool :=
  if 0 ≤ e then d * pow2 e.toNat ≤ a else d ≤ a * pow2 (-e).toNat

/-- Nearest IEEE-754 binary64 value of `n / d` (`d` positive), ties to
even, returned in units of `2 ^ (-1074)` — every finite double is an
integer multiple of that unit.  The binary exponent `E` satisfies
`2 ^ E ≤ |n| / d < 2 ^ (E + 1)`; the mantissa is rounded at position
`E - 52`, floored at the subnormal position `-1074`.  Values at or beyond
`2 ^ 1024` (where CPython's `float()` raises `OverflowError` and float
arithmetic returns `inf`) are returned unclamped; no decimal the
extractors or statement parsers produce reaches that range. -/
def round64units (n : ℤ) (d : ℕ) : ℤ :=
  if n = 0 then 0
  else
    let a := n.natAbs
    let E0 : ℤ := (bitlen a : ℤ) - (bitlen d : ℤ)
    let E : ℤ := if twoPowLe a d E0 then E0 else E0 - 1
    let p : ℤ := max (E - 52) (-1074)
    let num : ℕ := if p ≤ 0 then a * pow2 (-p).toNat else a
    let den : ℕ := if p ≤ 0 then d else d * pow2 p.toNat
    let q := num / den
    let r := num % den
    let m := if 2 * r > den || (2 * r == den && q % 2 == 1) then q + 1 else q
    let sgn : ℤ := if n < 0 then -1 else 1
    sgn * (m : ℤ) * ((pow2 (p + 1074).toNat : ℕ) : ℤ)

/-- The binary64 double a parsed literal rounds to, in units of
`2 ^ (-1074)` (what `float(s)` actually yields). -/
def pfDouble (x : PyFloat) : ℤ := round64units x.num (10 ^ x.exp10)

/-- Exact rational value of a double given in `2 ^ (-1074)` units. -/
def dblVal (u : ℤ) : ℚ := (u : ℚ) / ((pow2 1074 : ℕ) : ℚ)

/-- The rational value of the double a parsed float denotes. -/
def pfVal (x : PyFloat) : ℚ := dblVal (pfDouble x)

/-- Python float truthiness: the DOUBLE is nonzero. -/
def pfTruthy (x : PyFloat) : Bool := pfDouble x != 0

/-- The double is strictly positive (`float(...) > 0`). -/
def pfPosB (x : PyFloat) : Bool := decide (0 < pfDouble x)

/-- The binary64 literal `0.01` in `2 ^ (-1074)` units
(`5764607523034235 * 2 ^ (-59)`, slightly above 1/100). -/
def cent64 : ℤ := round64units 1 100

/-- `abs(x - y) < 0.01` computed the way CPython computes it: the exact
dyadic difference of the two doubles is rounded back to binary64 and its
magnitude compared to the double nearest `0.01`. -/
def pfCentLt (x y : PyFloat) : Bool :=
  (round64units (pfDouble x - pfDouble y) (pow2 1074)).natAbs < cent64.natAbs

def natOfDigitsL (l : Str) : Nat := l.foldl (fun n c => n * 10 + (c.toNat - 48)) 0

/-- Python `float(s)`: strip whitespace, optional sign, `digits`,
`digits.digits*`, `digits.` or `.digits`, optional `e`/`E` exponent.
(`inf`/`nan` and underscore separators are not modelled; no caller of
`float` in this code feeds them.) -/
def pyFloat? : Str → Option PyFloat := fun s0 =>
  let s1 := pyStrip s0
  let signed : ℤ × Str :=
    match s1 with
    | '+' :: r => (1, r)
    | '-' :: r => (-1, r)
    | r => (1, r)
  let sgn := signed.1
  let s2 := signed.2
  let ip := s2.takeWhile isDigitC
  let r1 := s2.drop ip.length
  let mant : Option (PyFloat × Str) :=
    match r1 with
    | '.' :: r2 =>
      let fp := r2.takeWhile isDigitC
      if ip.isEmpty && fp.isEmpty then none
      else some (⟨sgn * (natOfDigitsL ip * 10 ^ fp.length + natOfDigitsL fp : ℕ), fp.length⟩,
                 r2.drop fp.length)
    | _ =>
      if ip.isEmpty then none
      else some (⟨sgn * (natOfDigitsL ip : ℕ), 0⟩, r1)
  match mant with
  | none => none
  | some (m, r) =>
    match r with
    | [] => some m
    | e :: r2 =>
      if e == 'e' || e == 'E' then
        let eneg : Bool × Str :=
          match r2 with
          | '+' :: r3 => (false, r3)
          | '-' :: r3 => (true, r3)
          | r3 => (false, r3)
        let ds := eneg.2.takeWhile isDigitC
        if ds.isEmpty || !(eneg.2.drop ds.length).isEmpty then none
        else
          if eneg.1 then some ⟨m.num, m.exp10 + natOfDigitsL ds⟩
          else some ⟨m.num * (10 : ℤ) ^ natOfDigitsL ds, m.exp10⟩
      else none

/-- Keep a plain-decimal capture when its comma-stripped value is a
positive float (`float(val) > 0`, `ValueError` skips the candidate). -/
def plainKeep (v : Str) : Option Str :=
  let v' := stripCommas v
  match pyFloat? v' with
  | some q => if pfPosB q then some v' else none
  | none => none

def plainVals (lines : List Str) : List Str :=
  (lines.map (fun l => (findAll plainAmtRE l).filterMap (fun caps => (grpGet 1 caps).bind plainKeep))).flatten

def tier6Plain (lines : List Str) : Option Str := (plainVals lines).head?

/-- `_extract_amount(lines)` (named `extract_amount` in the spec): the
six-tier cascade, first success wins. -/
def extract_amount (lines : List Str) : Option Str :=
  match searchGrp1 totalAmtRE (joinSp lines) with
  | some g => some (stripCommas g)
  | none =>
    match tier2Headline lines with
    | some v => some v
    | none =>
      match firstSome (fun l => searchGrp1 amountLabelRE l) lines with
      | some g => some (stripCommas g)
      | none =>
        match tier4Sym lines with
        | some v => some v
        | none =>
          match firstSome (fun l => searchGrp1 amountSymRE l) lines with
          | some g => some (stripCommas g)
          | none => tier6Plain lines

/-- `(?:AM|PM|am|pm)?` under `re.IGNORECASE`. -/
def ampmRE : RE := altL [strCI "AM", strCI "PM"]

def monthAbbrRE : RE := altL [strCI "Jan", strCI "Feb", strCI "Mar", strCI "Apr",
  strCI "May", strCI "Jun", strCI "Jul", strCI "Aug", strCI "Sep", strCI "Oct",
  strCI "Nov", strCI "Dec"]

/-- `_DATETIME_PATTERN`:
`((?:Jan|...|Dec)\w*\s+\d{1,2},?\s+\d{4}\s*\d{1,2}:\d{2}\s*(?:AM|PM|am|pm)?)`
with `re.IGNORECASE` (`\s*` before the clock allows the OCR-merged form). -/
def dtRE : RE := RE.grp 1 (rcat [monthAbbrRE, starR wC, plusR sC, repRange 1 2 dC,
  qOpt (chC ','), plusR sC, repN 4 dC, starR sC, repRange 1 2 dC, chC ':', repN 2 dC,
  starR sC, qOpt ampmRE])

/-- `_NUMERIC_DATE_PATTERN`:
`(\d{1,2}/\d{1,2}/\d{4}\s+\d{1,2}:\d{2}\s*(?:AM|PM)?|\d{4}-\d{2}-\d{2}\s+\d{1,2}:\d{2}\s*(?:AM|PM)?)`
with `re.IGNORECASE`. -/
def numDateRE : RE := RE.grp 1 (altL [
  rcat [repRange 1 2 dC, chC '/', repRange 1 2 dC, chC '/', repN 4 dC, plusR sC,
        repRange 1 2 dC, chC ':', repN 2 dC, starR sC, qOpt ampmRE],
  rcat [repN 4 dC, chC '-', repN 2 dC, chC '-', repN 2 dC, plusR sC,
        repRange 1 2 dC, chC ':', repN 2 dC, starR sC, qOpt ampmRE]])

/-- Collapse whitespace runs to one space (`re.sub(r"\s+", " ", text)`). -/
def collapseWsGo : Bool → Str → Str
  | _, [] => []
  | prevSp, c :: rest =>
    if pySpace c then
      if prevSp then collapseWsGo true rest else ' ' :: collapseWsGo true rest
    else c :: collapseWsGo false rest

def collapseWs (s : Str) : Str := collapseWsGo false s

/-- Exactly `n` leading digits. -/
def digitsTake : Nat → Str → Option (Str × Str)
  | 0, s => some ([], s)
  | _ + 1, [] => none
  | n + 1, c :: rest =>
    if isDigitC c then (digitsTake n rest).map (fun p => (c :: p.1, p.2)) else none

/-- Match `(\d{4})(\d{1,2}:\d{2})` at the head of `s` (greedy `\d{1,2}`),
returning the two groups and the rest. -/
def ytMatch (s : Str) : Option (Str × Str × Str) :=
  match digitsTake 4 s with
  | none => none
  | some (g1, r1) =>
    let two : Option (Str × Str) :=
      match digitsTake 2 r1 with
      | some (hh, r2) =>
        match r2 with
        | ':' :: r3 =>
          match digitsTake 2 r3 with
          | some (mm, r4) => some (hh ++ ':' :: mm, r4)
          | none => none
        | _ => none
      | none => none
    match two with
    | some (g2, rest) => some (g1, g2, rest)
    | none =>
      match digitsTake 1 r1 with
      | some (hh, r2) =>
        match r2 with
        | ':' :: r3 =>
          match digitsTake 2 r3 with
          | some (mm, r4) => some (g1, hh ++ ':' :: mm, r4)
          | none => none
        | _ => none
      | none => none

/-- `re.sub(r"(\d{4})(\d{1,2}:\d{2})", r"\1 \2", text)`: leftmost scan,
inserting a space between the merged year and clock time, resuming after
each replacement.  The first argument bounds the number of scan steps (one
or more characters are consumed per step, so `length + 1` is enough). -/
def fixYTF : Nat → Str → Str
  | 0, s => s
  | _ + 1, [] => []
  | gas + 1, c :: rest =>
    match ytMatch (c :: rest) with
    | some (g1, g2, remain) =>
      if remain.length < (c :: rest).length then g1 ++ ' ' :: (g2 ++ fixYTF gas remain)
      else c :: fixYTF gas rest
    | none => c :: fixYTF gas rest

def fixYT (s : Str) : Str := fixYTF (s.length + 1) s

/-- `_normalize_spaces(text)`: collapse whitespace, strip, split merged
year+clock ("202610:59" becomes "2026 10:59"). -/
def normalize_spaces (s : Str) : Str := fixYT (pyStrip (collapseWs s))

/-- `_extract_time(lines)` (named `extract_timestamp` in the spec): the
patterns run over the RAW text (joined, then per line); only the matched
substring is normalized. -/
def extract_time (lines : List Str) : Option Str :=
  match searchGrp1 dtRE (joinSp lines) with
  | some g => some (normalize_spaces g)
  | none =>
    match firstSome (fun l => searchGrp1 dtRE l) lines with
    | some g => some (normalize_spaces g)
    | none =>
      match searchGrp1 numDateRE (joinSp lines) with
      | some g => some (normalize_spaces g)
      | none => (firstSome (fun l => searchGrp1 numDateRE l) lines).map normalize_spaces

/-- `parse_receipt(lines)`. -/
def parse_receipt (lines : List Str) : ReceiptData :=
  ⟨detect_provider lines, extract_ref_no lines, extract_amount lines,
   extract_time lines, some lines⟩

/-! ## `matcher.py` — receipt-to-history matching -/

/-- `HistoryTransaction` (dataclass of `history_parser.py`). -/
structure HistoryTransaction where
  date_time : Option Str
  description : Option Str
  ref_number : Option Str
  amount : Option Str
  direction : Option Str
  balance : Option Str
  raw_row : Option (List Str)
deriving DecidableEq

/-- `MatchResult` (dataclass of `matcher.py`). -/
structure MatchResult where
  receipt_filename : Option Str
  verdict : Str
  receipt_ref : Option Str
  receipt_amount : Option Str
  receipt_time : Option Str
  history_ref : Option Str
  history_amount : Option Str
  history_time : Option Str
  details : Option Str
deriving DecidableEq

/-- `_normalize_ref(ref)`: `None` stays `None` (also for the empty string);
otherwise `re.sub(r"[\s\-]", "", ref).lower()` — which may be empty. -/
def normalize_ref : Option Str → Option Str
  | none => none
  | some s =>
    if s.isEmpty then none
    else some (lowerS (s.filter (fun c => !(pySpace c || c == '-'))))

/-- `_normalize_amount(amount)`: `float(amount.replace(",", ""))`, `None` on
a falsy input or a `ValueError`. -/
def normalize_amount : Option Str → Option PyFloat
  | none => none
  | some s => if s.isEmpty then none else pyFloat? (stripCommas s)

/-- Python `datetime` values produced by `strptime` (year 1..9999). -/
structure PyDateTime where
  year : Nat
  month : Nat
  day : Nat
  hour : Nat
  minute : Nat
  second : Nat
deriving DecidableEq

def leapB (y : Nat) : Bool := y % 4 == 0 && (y % 100 != 0 || y % 400 == 0)

def daysInMonth (y m : Nat) : Nat :=
  if m == 2 then (if leapB y then 29 else 28)
  else if m == 4 || m == 6 || m == 9 || m == 11 then 30
  else 31

/-- Days since the proleptic-Gregorian epoch for a (positive) shifted year;
standard civil-calendar formula, used only to subtract datetimes. -/
def civilDays (y m d : Nat) : Nat :=
  let y' := if m ≤ 2 then y - 1 else y
  let era := y' / 400
  let yoe := y' % 400
  let mp := (m + 9) % 12
  let doy := (153 * mp + 2) / 5 + d - 1
  let doe := yoe * 365 + yoe / 4 - yoe / 100 + doy
  era * 146097 + doe

/-- Absolute seconds of a datetime (year shifted by +400 to stay in `Nat`;
the shift cancels in differences). -/
def dtSecs (t : PyDateTime) : ℤ :=
  ((civilDays (t.year + 400) t.month t.day : ℤ) * 86400)
  + (t.hour : ℤ) * 3600 + (t.minute : ℤ) * 60 + (t.second : ℤ)

/-- `datetime(...)` construction: reject out-of-range fields
(`ValueError`, which makes `strptime` try the next format). -/
def mkDT (y mo d h mi se : Nat) : Option PyDateTime :=
  if 1 ≤ y && y ≤ 9999 && 1 ≤ mo && mo ≤ 12 && 1 ≤ d && d ≤ daysInMonth y mo
     && h ≤ 23 && mi ≤ 59 && se ≤ 59 then
    some ⟨y, mo, d, h, mi, se⟩
  else none

/-! `strptime` directive regexes (transcribed from CPython `_strptime`).
Group numbering: 1 = `%Y`, 2 = `%m`, 3 = `%d`, 4 = `%H`, 5 = `%I`,
6 = `%M`, 7 = `%S`, 8 = `%p`, 9 = `%b`/`%B`. -/

/-- `%d`: `(3[01]|[12]\d|0[1-9]|[1-9])`. -/
def dayRE : RE := RE.grp 3 (altL [
  rcat [chC '3', RE.cls (fun c => c == '0' || c == '1')],
  rcat [RE.cls (fun c => c == '1' || c == '2'), dC],
  rcat [chC '0', RE.cls (fun c => '1' ≤ c && c ≤ '9')],
  RE.cls (fun c => '1' ≤ c && c ≤ '9')])

/-- `%m`: `(1[0-2]|0[1-9]|[1-9])`. -/
def monNumRE : RE := RE.grp 2 (altL [
  rcat [chC '1', RE.cls (fun c => c == '0' || c == '1' || c == '2')],
  rcat [chC '0', RE.cls (fun c => '1' ≤ c && c ≤ '9')],
  RE.cls (fun c => '1' ≤ c && c ≤ '9')])

/-- `%Y`: `(\d\d\d\d)`. -/
def yearRE : RE := RE.grp 1 (repN 4 dC)

/-- `%H`: `(2[0-3]|[0-1]\d|\d)`. -/
def h24RE : RE := RE.grp 4 (altL [
  rcat [chC '2', RE.cls (fun c => '0' ≤ c && c ≤ '3')],
  rcat [RE.cls (fun c => c == '0' || c == '1'), dC],
  dC])

/-- `%I`: `(1[0-2]|0[1-9]|[1-9])`. -/
def h12RE : RE := RE.grp 5 (altL [
  rcat [chC '1', RE.cls (fun c => c == '0' || c == '1' || c == '2')],
  rcat [chC '0', RE.cls (fun c => '1' ≤ c && c ≤ '9')],
  RE.cls (fun c => '1' ≤ c && c ≤ '9')])

/-- `%M`: `([0-5]\d|\d)`. -/
def minRE : RE := RE.grp 6 (altL [rcat [RE.cls (fun c => '0' ≤ c && c ≤ '5'), dC], dC])

/-- `%S`: `(6[0-1]|[0-5]\d|\d)` (61 is then rejected by `datetime`). -/
def secRE : RE := RE.grp 7 (altL [
  rcat [chC '6', RE.cls (fun c => c == '0' || c == '1')],
  rcat [RE.cls (fun c => '0' ≤ c && c ≤ '5'), dC],
  dC])

/-- `%p`: `(AM|PM)` case-insensitively. -/
def pRE : RE := RE.grp 8 (altL [strCI "AM", strCI "PM"])

/-- `%b`: the twelve month abbreviations, case-insensitively. -/
def monAbbrGrpRE : RE := RE.grp 9 monthAbbrRE

/-- `%B`: the twelve full month names, case-insensitively. -/
def monFullGrpRE : RE := RE.grp 9 (altL [strCI "January", strCI "February",
  strCI "March", strCI "April", strCI "May", strCI "June", strCI "July",
  strCI "August", strCI "September", strCI "October", strCI "November",
  strCI "December"])

/-- Whitespace in a `strptime` format matches `\s+`. -/
def wsP : RE := plusR sC

/-- The formats tried by `_parse_time`, in source order, compiled the way
`_strptime` compiles them (whitespace to `\s+`, full consumption). -/
def fmtREs : List RE := [
  -- "%b %d, %Y %I:%M %p"
  rcat [monAbbrGrpRE, wsP, dayRE, chC ',', wsP, yearRE, wsP, h12RE, chC ':', minRE, wsP, pRE, RE.eos],
  -- "%b %d, %Y %H:%M"
  rcat [monAbbrGrpRE, wsP, dayRE, chC ',', wsP, yearRE, wsP, h24RE, chC ':', minRE, RE.eos],
  -- "%B %d, %Y %I:%M %p"
  rcat [monFullGrpRE, wsP, dayRE, chC ',', wsP, yearRE, wsP, h12RE, chC ':', minRE, wsP, pRE, RE.eos],
  -- "%b %d %Y %I:%M %p"
  rcat [monAbbrGrpRE, wsP, dayRE, wsP, yearRE, wsP, h12RE, chC ':', minRE, wsP, pRE, RE.eos],
  -- "%m/%d/%Y %I:%M %p"
  rcat [monNumRE, chC '/', dayRE, chC '/', yearRE, wsP, h12RE, chC ':', minRE, wsP, pRE, RE.eos],
  -- "%Y-%m-%d %H:%M"
  rcat [yearRE, chC '-', monNumRE, chC '-', dayRE, wsP, h24RE, chC ':', minRE, RE.eos],
  -- "%b %d, %Y %I:%M:%S %p"
  rcat [monAbbrGrpRE, wsP, dayRE, chC ',', wsP, yearRE, wsP, h12RE, chC ':', minRE, chC ':', secRE, wsP, pRE, RE.eos],
  -- "%b %d, %Y"
  rcat [monAbbrGrpRE, wsP, dayRE, chC ',', wsP, yearRE, RE.eos]]

def monthFromName (s : Str) : Option Nat :=
  let l := lowerS s
  if leadEq (str "jan") l then some 1
  else if leadEq (str "feb") l then some 2
  else if leadEq (str "mar") l then some 3
  else if leadEq (str "apr") l then some 4
  else if leadEq (str "may") l then some 5
  else if leadEq (str "jun") l then some 6
  else if leadEq (str "jul") l then some 7
  else if leadEq (str "aug") l then some 8
  else if leadEq (str "sep") l then some 9
  else if leadEq (str "oct") l then some 10
  else if leadEq (str "nov") l then some 11
  else if leadEq (str "dec") l then some 12
  else none

def natOfDigits (l : Str) : Nat := l.foldl (fun n c => n * 10 + (c.toNat - 48)) 0

def natGrp (i : Nat) (caps : Caps) : Option Nat := (grpGet i caps).map natOfDigits

/-- Interpret the captured groups of one format the way `_strptime` does
(12-hour conversion via `%p`; defaults day/month 1, clock 0). -/
def interpGroups (caps : Caps) : Option PyDateTime :=
  let y := (natGrp 1 caps).getD 1900
  let mo := (firstOf (natGrp 2 caps) ((grpGet 9 caps).bind monthFromName)).getD 1
  let d := (natGrp 3 caps).getD 1
  let mi := (natGrp 6 caps).getD 0
  let se := (natGrp 7 caps).getD 0
  let pm : Option Bool := (grpGet 8 caps).map (fun s => lowerS s == str "pm")
  let h : Nat :=
    match natGrp 4 caps with
    | some hh => hh
    | none =>
      match natGrp 5 caps with
      | some ii =>
        match pm with
        | some true => if ii == 12 then 12 else ii + 12
        | _ => if ii == 12 then 0 else ii
      | none => 0
  mkDT y mo d h mi se

/-- `datetime.strptime(s, fmt)` for one compiled format: anchored match
consuming the whole string, then group interpretation and validation. -/
def strptime1 (re : RE) (s : Str) : Option PyDateTime :=
  match reMatch0 re s with
  | some caps => interpGroups caps
  | none => none

/-- `_parse_time(time_str)`: falsy input is `None`; otherwise strip and try
each format in order, first parseable wins; unparseable gives `None`. -/
def parse_time : Option Str → Option PyDateTime
  | none => none
  | some s =>
    if s.isEmpty then none
    else firstSome (fun re => strptime1 re (pyStrip s)) fmtREs

/-! The three strategies of `match_receipt_to_history`.  The Python function
computes `r_ref`, `r_amount`, `r_time` once and runs three guarded blocks
with early returns; each block is a standalone definition here and the main
function chains them (`none` = the block fell through). -/

def optRepr : Option Str → Str
  | none => str "None"
  | some s => s

def natStr (n : Nat) : Str := (Nat.repr n).toList

def intStr (i : ℤ) : Str := (toString i).toList

/-- `verdict="matched"` result of strategy 1. -/
def refMatched (receipt : ReceiptData) (txn : HistoryTransaction) : MatchResult :=
  ⟨none, str "matched", receipt.transaction_id, receipt.amount, receipt.time,
   txn.ref_number, txn.amount, txn.date_time,
   some (str "Reference number and amount match.")⟩

/-- `verdict="mismatch"` result of strategy 1. -/
def refMismatch (receipt : ReceiptData) (txn : HistoryTransaction) : MatchResult :=
  ⟨none, str "mismatch", receipt.transaction_id, receipt.amount, receipt.time,
   txn.ref_number, txn.amount, txn.date_time,
   some (str "Reference number matches but amount differs: receipt="
         ++ optRepr receipt.amount ++ str ", history=" ++ optRepr txn.amount)⟩

/-- Amount check of strategy 1: `r_amount and h_amount and
abs(r_amount - h_amount) < 0.01` (float truthiness: zero is falsy). -/
def amtOkB (receipt : ReceiptData) (txn : HistoryTransaction) : Bool :=
  match normalize_amount receipt.amount, normalize_amount txn.amount with
  | some x, some y => pfTruthy x && pfTruthy y && pfCentLt x y
  | _, _ => false

def refVerdict (receipt : ReceiptData) (txn : HistoryTransaction) : MatchResult :=
  if amtOkB receipt txn then refMatched receipt txn else refMismatch receipt txn

/-- Loop guard of strategy 1: `h_ref and h_ref == r_ref`. -/
def refMatchB (ρ : Str) (txn : HistoryTransaction) : Bool :=
  match normalize_ref txn.ref_number with
  | some h => !h.isEmpty && h == ρ
  | none => false

/-- Strategy-1 scan: return a verdict on the FIRST entry whose normalized
reference equals the receipt's. -/
def refLoop (receipt : ReceiptData) (ρ : Str) : List HistoryTransaction → Option MatchResult
  | [] => none
  | txn :: rest =>
    if refMatchB ρ txn then some (refVerdict receipt txn) else refLoop receipt ρ rest

/-- Strategy 1 (`if r_ref:` — empty normalized reference is falsy). -/
def tier1 (receipt : ReceiptData) (history : List HistoryTransaction) : Option MatchResult :=
  match normalize_ref receipt.transaction_id with
  | some ρ => if ρ.isEmpty then none else refLoop receipt ρ history
  | none => none

/-- `verdict="matched"` result of strategy 2. -/
def tier2Result (receipt : ReceiptData) (txn : HistoryTransaction) (tolMin : ℤ) : MatchResult :=
  ⟨none, str "matched", receipt.transaction_id, receipt.amount, receipt.time,
   txn.ref_number, txn.amount, txn.date_time,
   some (str "Amount and time match (within " ++ intStr tolMin ++ str " min).")⟩

/-- Strategy-2 scan: amount within epsilon, then time within tolerance. -/
def tier2Loop (receipt : ReceiptData) (ra : PyFloat) (rt : PyDateTime) (tolMin : ℤ) :
    List HistoryTransaction → Option MatchResult
  | [] => none
  | txn :: rest =>
    let ha := normalize_amount txn.amount
    let ok := match ha with
      | some y => pfTruthy y && pfCentLt ra y
      | none => false
    if ok then
      match parse_time txn.date_time with
      | some ht =>
        if |dtSecs rt - dtSecs ht| ≤ 60 * tolMin then some (tier2Result receipt txn tolMin)
        else tier2Loop receipt ra rt tolMin rest
      | none => tier2Loop receipt ra rt tolMin rest
    else tier2Loop receipt ra rt tolMin rest

/-- Strategy 2 (`if r_amount and r_time:`). -/
def tier2 (receipt : ReceiptData) (history : List HistoryTransaction) (tolMin : ℤ) :
    Option MatchResult :=
  match normalize_amount receipt.amount, parse_time receipt.time with
  | some ra, some rt => if pfTruthy ra then tier2Loop receipt ra rt tolMin history else none
  | _, _ => none

/-- Strategy-3 candidate predicate: `h_amount and abs(r_amount - h_amount) < 0.01`. -/
def amountCandB (ra : PyFloat) (txn : HistoryTransaction) : Bool :=
  match normalize_amount txn.amount with
  | some y => pfTruthy y && pfCentLt ra y
  | none => false

/-- `verdict="matched"` result of strategy 3 (unique candidate). -/
def uniqueAmountResult (receipt : ReceiptData) (txn : HistoryTransaction) : MatchResult :=
  ⟨none, str "matched", receipt.transaction_id, receipt.amount, receipt.time,
   txn.ref_number, txn.amount, txn.date_time,
   some (str "Amount matches (unique match). Time/ref could not be verified.")⟩

/-- Rationale of the ambiguous strategy-3 result, reporting the count. -/
def ambigDetails (receipt : ReceiptData) (n : Nat) : Str :=
  str "Amount " ++ optRepr receipt.amount ++ str " found " ++ natStr n
  ++ str " times in history. Cannot determine unique match without ref number."

/-- `verdict="mismatch"` result of strategy 3 (two or more candidates); no
history snapshot is populated. -/
def ambigResult (receipt : ReceiptData) (n : Nat) : MatchResult :=
  ⟨none, str "mismatch", receipt.transaction_id, receipt.amount, receipt.time,
   none, none, none, some (ambigDetails receipt n)⟩

def tier3Core (receipt : ReceiptData) (cands : List HistoryTransaction) : Option MatchResult :=
  match cands with
  | [] => none
  | [txn] => some (uniqueAmountResult receipt txn)
  | _ :: _ :: rest => some (ambigResult receipt (rest.length + 2))

/-- Strategy 3 (`if r_amount:`): collect ALL amount candidates; exactly one
is a match, two or more are reported as ambiguity. -/
def tier3 (receipt : ReceiptData) (history : List HistoryTransaction) : Option MatchResult :=
  match normalize_amount receipt.amount with
  | some ra => if pfTruthy ra then tier3Core receipt (history.filter (amountCandB ra)) else none
  | none => none

/-- `verdict="not_found"` fallthrough result. -/
def notFoundResult (receipt : ReceiptData) : MatchResult :=
  ⟨none, str "not_found", receipt.transaction_id, receipt.amount, receipt.time,
   none, none, none, some (str "No matching transaction found in history.")⟩

/-- `match_receipt_to_history(receipt, history, time_tolerance_minutes=10)`. -/
def match_receipt_to_history (receipt : ReceiptData) (history : List HistoryTransaction)
    (tolMin : ℤ) : MatchResult :=
  match tier1 receipt history with
  | some r => r
  | none =>
    match tier2 receipt history tolMin with
    | some r => r
    | none =>
      match tier3 receipt history with
      | some r => r
      | none => notFoundResult receipt

/-! ## `history_parser.py` — history normalization

Table cells come from `pdfplumber` and may be missing, so a cell is an
`Option Str`; `str(c)` of a missing cell is the text `"None"`. -/

/-- `_clean_amount(val)`: strip, remove `[₱P,\s-]`, require a full match of
`^\d+\.?\d*$` whose float value is positive. -/
def clean_amount (val : Option Str) : Option Str :=
  match val with
  | none => none
  | some v =>
    if (pyStrip v).isEmpty then none
    else
      let cleaned := (pyStrip v).filter
        (fun c => !(c == '₱' || c == 'P' || c == ',' || pySpace c || c == '-'))
      let ds := cleaned.takeWhile isDigitC
      let rest := cleaned.drop ds.length
      let shape : Bool := !ds.isEmpty &&
        (rest.isEmpty || (rest.head? == some '.' && (rest.drop 1).all isDigitC))
      if shape then
        match pyFloat? cleaned with
        | some q => if pfPosB q then some cleaned else none
        | none => none
      else none

/-- `_clean_ref(val)`: strip, remove spaces, require a full match of
`^[\dA-Z][\dA-Z\-]{5,}$` (case-insensitive). -/
def clean_ref (val : Option Str) : Option Str :=
  match val with
  | none => none
  | some v =>
    if (pyStrip v).isEmpty then none
    else
      let cleaned := (pyStrip v).filter (fun c => c ≠ ' ')
      let ok : Bool :=
        match cleaned with
        | [] => false
        | c :: rest =>
          (isDigitC c || alphaA c) && 5 ≤ rest.length
          && rest.all (fun x => isDigitC x || alphaA x || x == '-')
      if ok then some cleaned else none

/-- `_normalize_date(val)`: strip and collapse whitespace. -/
def normalize_date (val : Option Str) : Option Str :=
  match val with
  | none => none
  | some v => if (pyStrip v).isEmpty then none else some (collapseWs (pyStrip v))

/-- Field key assigned to one header cell by `_detect_columns` (the
`if/elif` keyword chain). -/
def colKey (cl : Str) : Option Str :=
  if strHas cl (str "date") || strHas cl (str "time") || strHas cl (str "timestamp") then
    some (str "date_time")
  else if strHas cl (str "description") || strHas cl (str "details")
       || strHas cl (str "transaction") || strHas cl (str "particulars") then
    some (str "description")
  else if strHas cl (str "ref") || strHas cl (str "reference") then some (str "ref_number")
  else if strHas cl (str "debit") || strHas cl (str "out") then some (str "debit")
  else if strHas cl (str "credit") || strHas cl (str "in") then some (str "credit")
  else if strHas cl (str "balance") then some (str "balance")
  else if strHas cl (str "amount") then some (str "amount")
  else if strHas cl (str "fee") then some (str "fee")
  else if strHas cl (str "status") then some (str "status")
  else none

abbrev ColMap := List (Str × Nat)

/-- Dict assignment `col_map[k] = i` (later assignments overwrite). -/
def setKey (m : ColMap) (k : Str) (i : Nat) : ColMap :=
  if m.any (fun p => p.1 == k) then m.map (fun p => if p.1 == k then (k, i) else p)
  else m ++ [(k, i)]

def getKey (m : ColMap) (k : Str) : Option Nat :=
  (m.find? (fun p => p.1 == k)).map (fun p => p.2)

def detectColsGo (i : Nat) (cells : List (Option Str)) (m : ColMap) : ColMap :=
  match cells with
  | [] => m
  | cell :: rest =>
    let m' :=
      match cell with
      | none => m
      | some c =>
        if c.isEmpty then m
        else
          match colKey (lowerS (pyStrip c)) with
          | some k => setKey m k i
          | none => m
    detectColsGo (i + 1) rest m'

/-- `_detect_columns(header_row)`. -/
def detect_columns (header : List (Option Str)) : ColMap := detectColsGo 0 header []

/-- Positional fallback map (GCash layout), with balance when 6+ columns. -/
def posMap (numCols : Nat) : ColMap :=
  [(str "date_time", 0), (str "description", 1), (str "ref_number", 2),
   (str "debit", 3), (str "credit", 4)]
  ++ (if 6 ≤ numCols then [(str "balance", 5)] else [])

/-- Python `str(c)` of a cell. -/
def cellStr : Option Str → Str
  | none => str "None"
  | some s => s

/-- `_row_to_transaction(row, col_map)`. -/
def row_to_transaction (row : List (Option Str)) (colMap : ColMap) : HistoryTransaction :=
  let get : Str → Option Str := fun f =>
    match getKey colMap f with
    | some i => (row.getD i none)
    | none => none
  let date_time := normalize_date (get (str "date_time"))
  let descr :=
    match get (str "description") with
    | some d => if d.isEmpty then none else some (pyStrip d)
    | none => none
  let ref_number := clean_ref (get (str "ref_number"))
  let debit_val := clean_amount (get (str "debit"))
  let credit_val := clean_amount (get (str "credit"))
  let amount_val := clean_amount (get (str "amount"))
  let amtDir : Option Str × Option Str :=
    match debit_val with
    | some dv => (some dv, some (str "debit"))
    | none =>
      match credit_val with
      | some cv => (some cv, some (str "credit"))
      | none =>
        match amount_val with
        | some av => (some av, some (str "unknown"))
        | none => (none, none)
  let balance := clean_amount (get (str "balance"))
  ⟨date_time, descr, ref_number, amtDir.1, amtDir.2, balance, some (row.map cellStr)⟩

/-- Truthiness of an optional string. -/
def truthyOS : Option Str → Bool
  | none => false
  | some s => !s.isEmpty

/-- Row loop of `_parse_table_rows`: skip blank rows and repeated headers,
keep only transactions with an amount or a reference. -/
def rowsLoop (colMap : ColMap) : List (List (Option Str)) → List HistoryTransaction
  | [] => []
  | row :: rest =>
    if row.isEmpty || row.all (fun cell => !truthyOS (cell.map pyStrip)) then
      rowsLoop colMap rest
    else
      let rowText := lowerS (joinSp (row.filterMap (fun c =>
        match c with
        | some s => if s.isEmpty then none else some s
        | none => none)))
      if strHas rowText (str "date") && strHas rowText (str "description") then
        rowsLoop colMap rest
      else
        let txn := row_to_transaction row colMap
        if truthyOS txn.amount || truthyOS txn.ref_number then
          txn :: rowsLoop colMap rest
        else rowsLoop colMap rest

/-- `_parse_table_rows(table)`. -/
def parse_table_rows (table : List (List (Option Str))) : List HistoryTransaction :=
  match table with
  | [] => []
  | [_] => []
  | h0 :: h1 :: rest =>
    let cm0 := detect_columns h0
    let hdata : List (Option Str) × ColMap × List (List (Option Str)) :=
      if cm0.length < 2 && 0 < rest.length then (h1, detect_columns h1, rest)
      else (h0, cm0, h1 :: rest)
    let header := hdata.1
    let colMap := hdata.2.1
    let dataRows := hdata.2.2
    let colMap2 :=
      if colMap.length < 2 then
        (if 5 ≤ header.length then posMap header.length else colMap)
      else colMap
    rowsLoop colMap2 dataRows

/-- `_DATE_PATTERN` of the raw-text fallback:
`((?:Jan|...|Dec)\w*\s+\d{1,2},?\s+\d{4}(?:\s+\d{1,2}:\d{2}\s*(?:AM|PM)?)?)`
with `re.IGNORECASE`. -/
def histDateRE : RE := RE.grp 1 (rcat [monthAbbrRE, starR wC, plusR sC,
  repRange 1 2 dC, qOpt (chC ','), plusR sC, repN 4 dC,
  qOpt (rcat [plusR sC, repRange 1 2 dC, chC ':', repN 2 dC, starR sC, qOpt ampmRE])])

/-- `_REF_IN_TEXT`:
`(?:Ref\.?\s*(?:No\.?|#|Number)?|Reference\s*(?:No\.?|#)?)\s*:?\s*([A-Z0-9][\w\-]{5,})`
with `re.IGNORECASE`. -/
def refInTextRE : RE := rcat [
  altL [rcat [strCI "Ref", qOpt (chC '.'), starR sC,
              qOpt (altL [rcat [strCI "No", qOpt (chC '.')], chC '#', strCI "Number"])],
        rcat [strCI "Reference", starR sC,
              qOpt (altL [rcat [strCI "No", qOpt (chC '.')], chC '#'])]],
  starR sC, qOpt (chC ':'), starR sC,
  RE.grp 1 (rcat [RE.cls (fun c => alphaA c || isDigitC c),
                  repAtLeast 5 (RE.cls (fun c => pyWord c || c == '-'))])]

/-- `_AMOUNT_IN_TEXT`: `(?:[₱P]|PHP)\s*([0-9,]+\.\d{2})` with `re.IGNORECASE`. -/
def amtInTextRE : RE := rcat [altL [RE.cls pesoP, strCI "PHP"], starR sC, amt2RE]

/-- Python `text.split("\n")`. -/
def splitNl (s : Str) : List Str :=
  match s with
  | [] => [[]]
  | c :: rest =>
    let tl := splitNl rest
    if c == '\n' then [] :: tl
    else
      match tl with
      | [] => [[c]]
      | hd :: tl' => (c :: hd) :: tl'

/-- Pending transaction flushed when a new date is found (description is the
line carrying the NEW date). -/
def pendingTxn (curDate : Option Str) (line : Str) (curRef curAmt : Option Str) :
    HistoryTransaction :=
  ⟨curDate, some line, curRef, curAmt, some (str "unknown"), none, none⟩

/-- Line loop of `_parse_raw_text`: fold carrying the current date,
reference and amount. -/
def prtLoop (curDate curRef curAmt : Option Str) : List Str → List HistoryTransaction
  | [] =>
    if truthyOS curRef || truthyOS curAmt then
      [⟨curDate, none, curRef, curAmt, some (str "unknown"), none, none⟩]
    else []
  | l0 :: rest =>
    let line := pyStrip l0
    if line.isEmpty then prtLoop curDate curRef curAmt rest
    else
      let step : List HistoryTransaction × Option Str × Option Str × Option Str :=
        match searchGrp1 histDateRE line with
        | some d =>
          if truthyOS curRef || truthyOS curAmt then
            ([pendingTxn curDate line curRef curAmt], none, none, some (pyStrip d))
          else ([], curRef, curAmt, some (pyStrip d))
        | none => ([], curRef, curAmt, curDate)
      let curRef1 :=
        match searchGrp1 refInTextRE line with
        | some r => some (r.filter (fun c => c ≠ ' '))
        | none => step.2.1
      let curAmt1 :=
        match searchGrp1 amtInTextRE line with
        | some a => some (stripCommas a)
        | none => step.2.2.1
      step.1 ++ prtLoop step.2.2.2 curRef1 curAmt1 rest

/-- `_parse_raw_text(text)`. -/
def parse_raw_text (text : Str) : List HistoryTransaction :=
  prtLoop none none none (splitNl text)

/-! ## Spec-model timestamp pipeline (for comparison with `extract_time`)

The spec describes `extract_timestamp` as normalizing ALL lines first and
then searching; `extract_time` above (the code) searches the raw text and
normalizes only the matched substring.  This definition transcribes the
spec's wording so the two can be compared. -/

/-- The timestamp extractor as the spec words it: normalize every line
(collapse whitespace, split merged year+clock), then search the month-name
pattern over the joined text, then per line, then the numeric pattern in the
same order; return the first match whitespace-normalized. -/
def extractTimeSpecPipeline (lines : List Str) : Option Str :=
  let nl := lines.map normalize_spaces
  (firstOf (searchGrp1 dtRE (joinSp nl))
    (firstOf (firstSome (fun l => searchGrp1 dtRE l) nl)
      (firstOf (searchGrp1 numDateRE (joinSp nl))
        (firstSome (fun l => searchGrp1 numDateRE l) nl)))).map normalize_spaces

/-- The raw-text search order actually implemented by `extract_time`,
written as a `firstOf` chain (used to state the amended timestamp claim). -/
def rawTimePipeline (lines : List Str) : Option Str :=
  (firstOf (searchGrp1 dtRE (joinSp lines))
    (firstOf (firstSome (fun l => searchGrp1 dtRE l) lines)
      (firstOf (searchGrp1 numDateRE (joinSp lines))
        (firstSome (fun l => searchGrp1 numDateRE l) lines)))).map normalize_spaces

/-! ## Concrete instances used by witnesses and counterexamples -/

def c1wReceipt : ReceiptData := ⟨none, some (str "REF 123456"), some (str "100.00"), none, none⟩

def c1wTxn : HistoryTransaction := ⟨none, none, some (str "REF-123456"), some (str "300.00"), none, none, none⟩

def c1wTxn2 : HistoryTransaction := ⟨none, none, none, some (str "100.00"), none, none, none⟩

def c1wHistory : List HistoryTransaction := [c1wTxn, c1wTxn2]

def c1cReceipt : ReceiptData := ⟨none, some (str "- -"), some (str "100.00"), none, none⟩

def c1cTxn : HistoryTransaction := ⟨none, none, some (str "--"), some (str "300.00"), none, none, none⟩

def c1cHistory : List HistoryTransaction := [c1cTxn]

def c2wReceipt : ReceiptData := ⟨none, none, some (str "100.00"), none, none⟩

def c2wTxn : HistoryTransaction := ⟨none, none, none, some (str "100.00"), none, none, none⟩

def c2aReceipt : ReceiptData := ⟨none, none, some (str "25.00"), none, none⟩

def c2aTxn : HistoryTransaction := ⟨none, none, none, some (str "25.00"), none, none, none⟩

def c2cReceipt : ReceiptData := ⟨none, none, some (str "0.00"), none, none⟩

def c2cTxn : HistoryTransaction := ⟨none, none, none, some (str "0.00"), none, none, none⟩

def c2cHistory : List HistoryTransaction := [c2cTxn]

def c3demo : List Str := [str "paid via Gcash", str "BDO network"]

def c4demo : List Str := [str "Ref No. 123456789012345678"]

def c5demo : List Str := [str "Total Amount Sent P420.00", str "Service Fee P10.00"]

def c6demo : List Str := [str "junk P10.00", str "P420.00"]

def c6demo2 : List Str := [str "has P10.00 inside", str "PHP 420.00"]

def c7demo : List Str := [str "01/28/202619:58"]

def catsLines : List Str := [str "cats", str "funny", str "meme"]

def c10cReceipt : ReceiptData := ⟨none, some (str "---"), none, none, none⟩

def c10cTxn : HistoryTransaction := ⟨none, none, some (str "- - -"), some (str "50.00"), none, none, none⟩

def c10cHistory : List HistoryTransaction := [c10cTxn]

def c10wReceipt : ReceiptData := ⟨none, some (str "BN-2026"), none, none, none⟩

def c10wTxn : HistoryTransaction := ⟨none, none, some (str "BN 2026"), some (str "75.00"), none, none, none⟩

/-! ## Helper lemmas -/

/-- `dblVal` of a whole multiple of the unit scale: `m * 2 ^ 1074` units is
the rational `m` (used to read concrete doubles back as rationals). -/
theorem dblVal_mul_pow (m : ℤ) : dblVal (m * ((pow2 1074 : ℕ) : ℤ)) = (m : ℚ) := by
  unfold dblVal
  have h0 : (0 : ℕ) < pow2 1074 := by decide
  have h : ((pow2 1074 : ℕ) : ℚ) ≠ 0 := by exact_mod_cast h0.ne'
  push_cast
  field_simp

/-- The strategy-1 scan fires on exactly the first history entry whose
normalized reference matches (Python loop = `List.find?`). -/
theorem refLoop_of_find (receipt : ReceiptData) (ρ : Str) :
    ∀ (history : List HistoryTransaction) (txn : HistoryTransaction),
      history.find? (refMatchB ρ) = some txn →
      refLoop receipt ρ history = some (refVerdict receipt txn) := by
  intro history
  induction history with
  | nil => intro txn h; simp [List.find?] at h
  | cons a rest ih =>
    intro txn h
    by_cases hb : refMatchB ρ a
    · rw [List.find?_cons_of_pos _ hb] at h
      cases h
      simp [refLoop, hb]
    · rw [List.find?_cons_of_neg _ hb] at h
      simp [refLoop, hb]
      exact ih txn h

/-- Strategy 1 of the matcher, given a truthy normalized reference and a
first matching entry. -/
theorem tier1_of_find (receipt : ReceiptData) (history : List HistoryTransaction)
    (ρ : Str) (txn : HistoryTransaction)
    (hρ : normalize_ref receipt.transaction_id = some ρ) (hne : ρ ≠ [])
    (hfind : history.find? (refMatchB ρ) = some txn) :
    tier1 receipt history = some (refVerdict receipt txn) := by
  unfold tier1
  rw [hρ]
  have he : ρ.isEmpty = false := by
    cases ρ with
    | nil => exact absurd rfl hne
    | cons c cs => rfl
  simp only [he, Bool.false_eq_true, if_false]
  exact refLoop_of_find receipt ρ history txn hfind

/-- The matcher returns whatever strategy 1 produced. -/
theorem mrth_t1 (receipt : ReceiptData) (history : List HistoryTransaction)
    (tolMin : ℤ) (r : MatchResult) (h : tier1 receipt history = some r) :
    match_receipt_to_history receipt history tolMin = r := by
  unfold match_receipt_to_history
  rw [h]

/-- When strategies 1 and 2 fall through, the matcher returns whatever
strategy 3 produced. -/
theorem mrth_t3 (receipt : ReceiptData) (history : List HistoryTransaction)
    (tolMin : ℤ) (r : MatchResult)
    (h1 : tier1 receipt history = none) (h2 : tier2 receipt history tolMin = none)
    (h3 : tier3 receipt history = some r) :
    match_receipt_to_history receipt history tolMin = r := by
  unfold match_receipt_to_history
  rw [h1, h2, h3]

/-- A receipt with no recognized fields reaches the `not_found` fallthrough
on EVERY history list (no strategy guard is satisfied). -/
theorem allNone_notFound (rt : Option (List Str)) (history : List HistoryTransaction)
    (tolMin : ℤ) :
    match_receipt_to_history ⟨none, none, none, none, rt⟩ history tolMin
      = notFoundResult ⟨none, none, none, none, rt⟩ := rfl

/-! ## Claim C1 -/

/-- C1 counterexample: the claim as stated fails when the receipt's
reference is non-empty but normalizes to the empty string.  Receipt
reference `"- -"` and history reference `"--"` both normalize to `""`
(equal), the amounts `100.00` and `300.00` differ by more than `0.01`, yet
the verdict is `not_found`, not `Mismatch`: Python's `if r_ref:` treats the
empty normalized reference as falsy and skips the reference tier entirely. -/
theorem claimC1_cex :
    (c1cReceipt.transaction_id = some (str "- -")
      ∧ str "- -" ≠ []
      ∧ normalize_ref c1cReceipt.transaction_id = some []
      ∧ normalize_ref c1cTxn.ref_number = some []
      ∧ normalize_amount c1cReceipt.amount = some ⟨10000, 2⟩
      ∧ normalize_amount c1cTxn.amount = some ⟨30000, 2⟩
      ∧ (match_receipt_to_history c1cReceipt c1cHistory 10).verdict = str "not_found"
      ∧ (match_receipt_to_history c1cReceipt c1cHistory 10).verdict ≠ str "mismatch")
    ∧ pfVal ⟨10000, 2⟩ = 100 ∧ pfVal ⟨30000, 2⟩ = 300
    ∧ 1/100 < |(100 : ℚ) - 300| := by
  refine ⟨by decide, ?_, ?_, by norm_num⟩
  · rw [show pfVal ⟨10000, 2⟩ = dblVal (pfDouble ⟨10000, 2⟩) from rfl,
        show pfDouble ⟨10000, 2⟩ = 100 * ((pow2 1074 : ℕ) : ℤ) from by decide,
        dblVal_mul_pow]
    norm_num
  · rw [show pfVal ⟨30000, 2⟩ = dblVal (pfDouble ⟨30000, 2⟩) from rfl,
        show pfDouble ⟨30000, 2⟩ = 300 * ((pow2 1074 : ℕ) : ℤ) from by decide,
        dblVal_mul_pow]
    norm_num

/-- C1 (amended): reference-tier supremacy for receipts whose NORMALIZED
reference is non-empty.  If the first history entry whose normalized
reference equals the receipt's has an amount failing the code's binary64
epsilon test — `abs(r_amount - h_amount) < 0.01` computed on the parsed
doubles, with rounded subtraction and the double literal `0.01`, i.e.
`pfCentLt` evaluates false because the amounts differ by at least `0.01` as
the program measures it — the matcher returns the strategy-1 mismatch
result built from that entry, regardless of every other entry and without
consulting a later tier. -/
theorem claimC1_amended (receipt : ReceiptData) (history : List HistoryTransaction)
    (tolMin : ℤ) (ρ : Str) (txn : HistoryTransaction) (ra ha : PyFloat)
    (hρ : normalize_ref receipt.transaction_id = some ρ)
    (hne : ρ ≠ [])
    (hfind : history.find? (refMatchB ρ) = some txn)
    (hra : normalize_amount receipt.amount = some ra)
    (hha : normalize_amount txn.amount = some ha)
    (hd : pfCentLt ra ha = false) :
    match_receipt_to_history receipt history tolMin = refMismatch receipt txn
    ∧ (match_receipt_to_history receipt history tolMin).verdict = str "mismatch"
    ∧ (match_receipt_to_history receipt history tolMin).history_ref = txn.ref_number
    ∧ (match_receipt_to_history receipt history tolMin).history_amount = txn.amount := by
  have hok : amtOkB receipt txn = false := by
    unfold amtOkB
    simp only [hra, hha, hd, Bool.and_false]
  have ht1 : tier1 receipt history = some (refMismatch receipt txn) := by
    rw [tier1_of_find receipt history ρ txn hρ hne hfind]
    simp [refVerdict, hok]
  have hm := mrth_t1 receipt history tolMin _ ht1
  exact ⟨hm, by rw [hm]; rfl, by rw [hm]; rfl, by rw [hm]; rfl⟩

/-- C1 witness: receipt reference `"REF 123456"` (normalizes to
`"ref123456"`) matches the first entry `"REF-123456"` whose amount `300.00`
differs from the receipt's `100.00`; the second entry's amount equals the
receipt's exactly, yet the verdict is `mismatch`. -/
theorem claimC1_witness :
    (match_receipt_to_history c1wReceipt c1wHistory 10).verdict = str "mismatch"
    ∧ (match_receipt_to_history c1wReceipt c1wHistory 10).history_ref
        = some (str "REF-123456") :=
  have h := claimC1_amended c1wReceipt c1wHistory 10 (str "ref123456") c1wTxn
    ⟨10000, 2⟩ ⟨30000, 2⟩ (by decide) (by decide) (by decide) (by decide) (by decide)
    (by decide)
  ⟨h.2.1, h.2.2.1⟩

/-! ## Claim C10 -/

/-- C10 counterexample: the claim as stated fails when the receipt's
reference is non-empty but normalizes to the empty string.  Receipt
reference `"---"` and history reference `"- - -"` both normalize to `""`
(equal) and the receipt amount is `None`, yet the verdict is `not_found`,
not `Mismatch`: `if r_ref:` treats the empty normalized string as falsy. -/
theorem claimC10_cex :
    c10cReceipt.transaction_id = some (str "---")
    ∧ str "---" ≠ []
    ∧ c10cReceipt.amount = none
    ∧ normalize_ref c10cReceipt.transaction_id = some []
    ∧ normalize_ref c10cTxn.ref_number = some []
    ∧ (match_receipt_to_history c10cReceipt c10cHistory 10).verdict = str "not_found"
    ∧ (match_receipt_to_history c10cReceipt c10cHistory 10).verdict ≠ str "mismatch" := by
  decide

/-- C10 (amended): when the receipt's NORMALIZED reference is non-empty and
its amount does not parse, a reference hit on the first matching history
entry yields the strategy-1 `mismatch` result carrying that entry's fields —
never `matched` on reference equality alone. -/
theorem claimC10_amended (receipt : ReceiptData) (history : List HistoryTransaction)
    (tolMin : ℤ) (ρ : Str) (txn : HistoryTransaction)
    (hρ : normalize_ref receipt.transaction_id = some ρ)
    (hne : ρ ≠ [])
    (hamt : normalize_amount receipt.amount = none)
    (hfind : history.find? (refMatchB ρ) = some txn) :
    match_receipt_to_history receipt history tolMin = refMismatch receipt txn
    ∧ (match_receipt_to_history receipt history tolMin).verdict = str "mismatch"
    ∧ (match_receipt_to_history receipt history tolMin).history_ref = txn.ref_number
    ∧ (match_receipt_to_history receipt history tolMin).history_amount = txn.amount
    ∧ (match_receipt_to_history receipt history tolMin).history_time = txn.date_time
    ∧ (match_receipt_to_history receipt history tolMin).verdict ≠ str "matched" := by
  have hok : amtOkB receipt txn = false := by
    unfold amtOkB
    simp only [hamt]
  have ht1 : tier1 receipt history = some (refMismatch receipt txn) := by
    rw [tier1_of_find receipt history ρ txn hρ hne hfind]
    simp [refVerdict, hok]
  have hm := mrth_t1 receipt history tolMin _ ht1
  refine ⟨hm, by rw [hm]; rfl, by rw [hm]; rfl, by rw [hm]; rfl, by rw [hm]; rfl, ?_⟩
  rw [hm]
  show str "mismatch" ≠ str "matched"
  decide

/-- C10 witness: receipt reference `"BN-2026"` with no amount matches the
entry with reference `"BN 2026"` (both normalize to `"bn2026"`); the verdict
is `mismatch` with that entry's fields in the history snapshot. -/
theorem claimC10_witness :
    (match_receipt_to_history c10wReceipt [c10wTxn] 10).verdict = str "mismatch"
    ∧ (match_receipt_to_history c10wReceipt [c10wTxn] 10).history_amount
        = some (str "75.00") :=
  have h := claimC10_amended c10wReceipt [c10wTxn] 10 (str "bn2026") c10wTxn
    (by decide) (by decide) (by decide) (by decide)
  ⟨h.2.1, h.2.2.2.1⟩

/-! ## Claim C2 -/

/-- C2 counterexample: the claim as stated fails for a receipt amount that
parses to `0.0`.  Receipt amount `"0.00"` is parseable, there is no
reference anywhere and no timestamp, and exactly one history entry's amount
(`"0.00"`) is within `0.01` of the receipt's — the claim demands `Matched`,
but the code returns `not_found`: `if r_amount:` treats the float `0.0` as
falsy and skips the amount-only tier (and the entry is likewise dropped by
the `h_amount and ...` guard). -/
theorem claimC2_cex :
    c2cReceipt.transaction_id = none
    ∧ c2cReceipt.time = none
    ∧ c2cTxn.ref_number = none
    ∧ normalize_amount c2cReceipt.amount = some ⟨0, 2⟩
    ∧ normalize_amount c2cTxn.amount = some ⟨0, 2⟩
    ∧ c2cHistory = [c2cTxn]
    ∧ (match_receipt_to_history c2cReceipt c2cHistory 10).verdict = str "not_found"
    ∧ (match_receipt_to_history c2cReceipt c2cHistory 10).verdict ≠ str "matched" := by
  decide

/-- C2 (amended): amount-only ambiguity refusal, for receipts whose amount
parses to a NONZERO double (Python float truthiness), counting as
candidates the history entries whose amounts parse to nonzero doubles
passing the code's binary64 epsilon test `abs(r_amount - h_amount) < 0.01`
(`amountCandB`, computed on the rounded doubles exactly as CPython does).
When strategies 1 and 2 fall through: exactly one candidate gives `matched`
with the "Time/ref could not be verified" rationale built from that
candidate; two or more give `mismatch` whose rationale reports the candidate
count and whose history snapshot is empty — the matcher never picks one of
the ambiguous candidates. -/
theorem claimC2_amended (receipt : ReceiptData) (history : List HistoryTransaction)
    (tolMin : ℤ) (ra : PyFloat)
    (h1 : tier1 receipt history = none)
    (h2 : tier2 receipt history tolMin = none)
    (h3 : normalize_amount receipt.amount = some ra)
    (h4 : pfTruthy ra = true) :
    (∀ txn, history.filter (amountCandB ra) = [txn] →
      match_receipt_to_history receipt history tolMin = uniqueAmountResult receipt txn)
    ∧ (∀ a b rest, history.filter (amountCandB ra) = a :: b :: rest →
      match_receipt_to_history receipt history tolMin = ambigResult receipt (rest.length + 2)
      ∧ (match_receipt_to_history receipt history tolMin).verdict = str "mismatch"
      ∧ (match_receipt_to_history receipt history tolMin).details
          = some (ambigDetails receipt (rest.length + 2))
      ∧ (match_receipt_to_history receipt history tolMin).history_ref = none) := by
  constructor
  · intro txn hf
    apply mrth_t3 receipt history tolMin _ h1 h2
    unfold tier3
    simp only [h3, h4, if_true, hf]
    rfl
  · intro a b rest hf
    have hm : match_receipt_to_history receipt history tolMin
        = ambigResult receipt (rest.length + 2) := by
      apply mrth_t3 receipt history tolMin _ h1 h2
      unfold tier3
      simp only [h3, h4, if_true, hf]
      rfl
    exact ⟨hm, by rw [hm]; rfl, by rw [hm]; rfl, by rw [hm]; rfl⟩

/-- C2 witness: a ref-less, time-less receipt with amount `100.00` against a
single history entry with amount `100.00` — the unique amount candidate —
yields `matched` with the strategy-3 rationale. -/
theorem claimC2_witness :
    match_receipt_to_history c2wReceipt [c2wTxn] 10 = uniqueAmountResult c2wReceipt c2wTxn
    ∧ (match_receipt_to_history c2wReceipt [c2wTxn] 10).verdict = str "matched" :=
  have h := (claimC2_amended c2wReceipt [c2wTxn] 10 ⟨10000, 2⟩
    (by decide) (by decide) (by decide) (by decide)).1 c2wTxn (by decide)
  ⟨h, by rw [h]; rfl⟩

/-! ## Claim C3 -/

/-- C3 (confirmed): provider classification tests the keyword groups over
the lowercased joined lines in fixed priority order — BDO, then GCash, then
PayMaya, then the structural fallback ("transaction details" plus "transfer
from" implies GCash) — first match winning and no match yielding `none`; in
particular any line set containing both a BDO keyword and a GCash keyword
classifies as BDO regardless of where the keywords appear. -/
theorem claimC3 (lines : List Str) :
    (bdoKwB (combinedOf lines) = true → detect_provider lines = some (str "bdo"))
    ∧ (bdoKwB (combinedOf lines) = false → gcashKwB (combinedOf lines) = true →
        detect_provider lines = some (str "gcash"))
    ∧ (bdoKwB (combinedOf lines) = false → gcashKwB (combinedOf lines) = false →
        mayaKwB (combinedOf lines) = true → detect_provider lines = some (str "paymaya"))
    ∧ (bdoKwB (combinedOf lines) = false → gcashKwB (combinedOf lines) = false →
        mayaKwB (combinedOf lines) = false → structKwB (combinedOf lines) = true →
        detect_provider lines = some (str "gcash"))
    ∧ (bdoKwB (combinedOf lines) = false → gcashKwB (combinedOf lines) = false →
        mayaKwB (combinedOf lines) = false → structKwB (combinedOf lines) = false →
        detect_provider lines = none)
    ∧ (bdoKwB (combinedOf lines) = true → gcashKwB (combinedOf lines) = true →
        detect_provider lines = some (str "bdo")) := by
  unfold detect_provider
  refine ⟨?_, ?_, ?_, ?_, ?_, ?_⟩
  · intro h1; simp [h1]
  · intro h1 h2; simp [h1, h2]
  · intro h1 h2 h3; simp [h1, h2, h3]
  · intro h1 h2 h3 h4; simp [h1, h2, h3, h4]
  · intro h1 h2 h3 h4; simp [h1, h2, h3, h4]
  · intro h1 _; simp [h1]

/-- C3 witness: lines carrying a GCash keyword before a BDO keyword still
classify as BDO. -/
theorem claimC3_witness : detect_provider c3demo = some (str "bdo") :=
  (claimC3 c3demo).2.2.2.2.2 (by decide) (by decide)

/-! ## Claim C4 -/

/-- C4 (confirmed): when the alphanumeric labeled strategy fails everywhere
and the numeric labeled pattern (label + 9-or-more digits possibly
interspersed with spaces) is the first to succeed with capture `g`,
`extract_ref_no` returns `g` with spaces removed and truncated to 13
characters; when the space-stripped capture is longer than 13 it returns
exactly its first 13 characters (a 13-character result). -/
theorem claimC4 (lines : List Str) (g : Str)
    (h1 : alnumStage lines = none)
    (h2 : numStage lines = some g)
    (h3 : 13 < (g.filter (fun c => c ≠ ' ')).length) :
    extract_ref_no lines = some ((g.filter (fun c => c ≠ ' ')).take 13)
    ∧ ((g.filter (fun c => c ≠ ' ')).take 13).length = 13 := by
  constructor
  · unfold extract_ref_no
    rw [h1, h2]
    rfl
  · rw [List.length_take]
    omega

/-- C4 witness: `"Ref No. 123456789012345678"` (18 digits) yields the first
13 digits `"1234567890123"`. -/
theorem claimC4_witness : extract_ref_no c4demo = some (str "1234567890123") := by
  rw [(claimC4 c4demo (str "123456789012345678") (by decide) (by decide) (by decide)).1]
  decide

/-! ## Claim C5 -/

/-- C5 (confirmed): whenever the tier-1 pattern — a "Total Amount Sent"
label followed by a two-decimal number — matches anywhere in the joined
lines with capture `g`, `extract_amount` returns `g` with thousands
separators stripped, before any later tier (fee and sub-label lines
included) is consulted. -/
theorem claimC5 (lines : List Str) (g : Str)
    (h : searchGrp1 totalAmtRE (joinSp lines) = some g) :
    extract_amount lines = some (stripCommas g) := by
  unfold extract_amount
  rw [h]

/-- C5 witness: lines carrying both `"Total Amount Sent P420.00"` and the
decoy `"Service Fee P10.00"` yield `"420.00"`, never `"10.00"`. -/
theorem claimC5_witness :
    extract_amount c5demo = some (str "420.00") ∧ str "420.00" ≠ str "10.00" :=
  ⟨by rw [claimC5 c5demo (str "420.00") (by decide)]; decide, by decide⟩

/-! ## Claim C6 -/

/-- C6 counterexample: the claim as stated fails because tier 2 only
recognizes the literal `PHP` prefix (with whitespace), not the general
currency prefixes `₱`/`P`.  The line `"P420.00"` is entirely a
currency-prefixed two-decimal number and carries no sub-label, there is no
"Total Amount Sent" match, yet `extract_amount` returns `"10.00"`, the
tier-4 hit on the earlier line `"junk P10.00"`, instead of `"420.00"`. -/
theorem claimC6_cex :
    searchGrp1 totalAmtRE (joinSp c6demo) = none
    ∧ (reMatch0 (rcat [RE.cls pesoP, amt2RE, RE.eos]) (str "P420.00")).isSome = true
    ∧ subLabelB (str "P420.00") = false
    ∧ c6demo = [str "junk P10.00", str "P420.00"]
    ∧ extract_amount c6demo = some (str "10.00")
    ∧ (some (str "10.00") : Option Str) ≠ some (str "420.00") := by
  decide

/-- C6 (amended): tier 2 before tiers 3/4/5, restricted to the pattern the
code implements: when there is no "Total Amount Sent" match and the tier-2
scan — the first line that, stripped, is entirely the literal `PHP`,
whitespace and a two-decimal number, and contains no "Send Money"/"Service
Fee" — produces a value, `extract_amount` returns that value in preference
to any Amount-label, currency-symbol or plain-decimal match. -/
theorem claimC6_amended (lines : List Str) (v : Str)
    (h1 : searchGrp1 totalAmtRE (joinSp lines) = none)
    (h2 : tier2Headline lines = some v) :
    extract_amount lines = some v := by
  unfold extract_amount
  rw [h1, h2]

/-- C6 witness: `"PHP 420.00"` on its own line wins over the tier-4
candidate `"P10.00"` sitting on an earlier line with other text. -/
theorem claimC6_witness :
    extract_amount c6demo2 = some (str "420.00") :=
  claimC6_amended c6demo2 (str "420.00") (by decide) (by decide)

/-! ## Claim C7 -/

/-- C7 counterexample: the claim as stated (normalize all lines first, then
search) disagrees with the code on `"01/28/202619:58"`: the code searches
the RAW text, where the numeric pattern's mandatory `\s+` between date and
clock fails, and returns `none`; the normalize-first pipeline of the spec
splits the merged `202619:58` and returns `"01/28/2026 19:58"`. -/
theorem claimC7_cex :
    extract_time c7demo = none
    ∧ extractTimeSpecPipeline c7demo = some (str "01/28/2026 19:58") := by
  decide

/-- C7 (amended): `extract_time` searches the RAW text — month-name pattern
over the joined lines then per line, then the numeric pattern in the same
order — and whitespace-normalizes only the matched substring (collapsing
runs and splitting a merged year+clock); `none` when no pattern fires.
That is, it equals the `rawTimePipeline` chain. -/
theorem claimC7_amended (lines : List Str) :
    extract_time lines = rawTimePipeline lines := by
  unfold extract_time rawTimePipeline
  cases e1 : searchGrp1 dtRE (joinSp lines) with
  | some g => simp [firstOf]
  | none =>
    cases e2 : firstSome (fun l => searchGrp1 dtRE l) lines with
    | some g => simp [firstOf]
    | none =>
      cases e3 : searchGrp1 numDateRE (joinSp lines) with
      | some g => simp [firstOf]
      | none => simp [firstOf]

/-! ## Claim C8 -/

/-- C8 (confirmed): the pipeline is total by construction in this embedding
(every function is a total Lean definition), absence is a value: the
unrecognizable lines `["cats","funny","meme"]` parse to a record whose
provider, reference, amount and timestamp are all `none`, and matching that
record against ANY history list with ANY tolerance falls through every
strategy to the `not_found` result — never an error. -/
theorem claimC8 (history : List HistoryTransaction) (tolMin : ℤ) :
    parse_receipt catsLines = ⟨none, none, none, none, some catsLines⟩
    ∧ match_receipt_to_history (parse_receipt catsLines) history tolMin
        = notFoundResult (parse_receipt catsLines)
    ∧ (match_receipt_to_history (parse_receipt catsLines) history tolMin).verdict
        = str "not_found" := by
  have hp : parse_receipt catsLines = ⟨none, none, none, none, some catsLines⟩ := by decide
  refine ⟨hp, ?_, ?_⟩
  · rw [hp]
    exact allNone_notFound (some catsLines) history tolMin
  · rw [hp, allNone_notFound (some catsLines) history tolMin]
    rfl

/-! ## Claim C9 -/

/-- C9 (code bug): the raw-text fallback of the history parser violates the
"amount always strictly positive" invariant that both the spec and the
dataclass's own comment (`amount ... always positive`) state, and that the
table path enforces through `_clean_amount`'s `float(cleaned) > 0` check.
On the raw text `"P0.00"` the fallback emits a transaction whose amount is
`"0.00"`, which parses to zero — not positive.  (The "amount or reference
present" half of the invariant does hold on this output.) -/
theorem claimC9_bug :
    parse_raw_text (str "P0.00")
      = [⟨none, none, none, some (str "0.00"), some (str "unknown"), none, none⟩]
    ∧ normalize_amount (some (str "0.00")) = some ⟨0, 2⟩
    ∧ pfPosB ⟨0, 2⟩ = false
    ∧ pfVal ⟨0, 2⟩ = 0
    ∧ (parse_raw_text (str "P0.00")).all
        (fun txn => truthyOS txn.amount || truthyOS txn.ref_number) = true := by
  refine ⟨by decide, by decide, by decide, ?_, by decide⟩
  rw [show pfVal ⟨0, 2⟩ = dblVal (pfDouble ⟨0, 2⟩) from rfl,
      show pfDouble ⟨0, 2⟩ = 0 from by decide]
  unfold dblVal
  norm_num
